import Mathlib

/-!
Verification of the `grpc-sys` build script (`src/grpc-sys/build.rs`).

The development shallowly embeds the build script's pure logic:

* the Module Presence Verifier (`prepare_grpc`, build.rs lines 26-47),
* the Link Plan Assembler (`build_grpc`, lines 62-219), modelled as the
  ordered sequence of `cargo:` directives it prints,
* the SSL Library Locator (`figure_ssl_path`, lines 221-246),
* the Dependency Path Reconciler (`setup_libz`, lines 248-263),
* the Header Surface Scanner (inside `bindgen_grpc`, lines 278-299),
* the Binding Path Resolver (`config_binding_path`, lines 338-364).

File-system state, environment variables and the CMake build itself are
external inputs; they are passed in explicitly (a directory-status oracle,
`Option String` environment values, the cache file's lines, the CMake
output directory).  Effects are reified: printed `cargo:` directives become
a `List Directive`, and the single `env::set_var` call becomes an explicit
write list.
-/

namespace GrpcSys

/-- Splits a character list at every slash character; models the component
view of `std::path::Path` for Unix-style paths.  The accumulator holds the
current component reversed. -/
def splitSlashAux : List Char → List Char → List (List Char)
  | [], acc => [acc.reverse]
  | c :: rest, acc =>
    if c = '/' then acc.reverse :: splitSlashAux rest []
    else splitSlashAux rest (c :: acc)

/-- Components of a slash-separated path string. -/
def splitSlash (s : String) : List (List Char) :=
  splitSlashAux s.toList []

/-- Models `Path::new(s).parent()` followed by `Display` for Unix-style
paths: `none` for the empty string or the bare root, otherwise the path
without its final component (so `parent "/a/b" = some "/a"`,
`parent "a" = some ""`, `parent "/a" = some "/"`). -/
def pathParent (s : String) : Option String :=
  let abs := s.toList.head? = some '/'
  let comps := (splitSlash s).filter (fun c => ¬(c = []))
  match comps with
  | [] => none
  | [_] => some (if abs then "/" else "")
  | _ :: _ :: _ =>
    some (String.mk ((if abs then ['/'] else []) ++
      (comps.dropLast.intersperse ['/']).flatten))

/-- Repeatedly strips the pattern `p` from the front of `l`, with explicit
fuel (the list length suffices, as each round removes at least one
character); models Rust's `str::trim_start_matches`. -/
def stripRepeated (p : List Char) : Nat → List Char → List Char
  | 0, l => l
  | fuel + 1, l =>
    if p ≠ [] ∧ p.isPrefixOf l then stripRepeated p fuel (l.drop p.length)
    else l

/-- Models `str::trim_start_matches`: removes every leading occurrence of
the pattern. -/
def trim_start_matches (s pat : String) : String :=
  String.mk (stripRepeated pat.toList s.toList.length s.toList)

/-- Embeds `trim_start` (build.rs lines 54-60): `Some` of the string with
every leading occurrence of the pattern removed when the string starts
with the pattern, `None` otherwise. -/
def trim_start (s pat : String) : Option String :=
  if pat.toList.isPrefixOf s.toList then some (trim_start_matches s pat)
  else none

/-- Link kind of a `cargo:rustc-link-lib` directive: `static=` (static),
no kind prefix (normal), or `framework=` (framework). -/
inductive LinkKind where
  | static
  | normal
  | framework
deriving DecidableEq, Repr

/-- One `cargo:` link directive printed by the build script: either a
`rustc-link-search=native=` search path or a `rustc-link-lib` library. -/
inductive Directive where
  | searchPath (path : String)
  | linkLib (kind : LinkKind) (name : String)
deriving DecidableEq, Repr

/-- The environment-derived build target facts the link plan reads:
`CARGO_CFG_TARGET_OS` (absent or a value) and `PROFILE`. -/
structure BuildTarget where
  targetOs : Option String
  profile : String
deriving DecidableEq, Repr

/-- The three cargo feature flags the link plan depends on:
`secure`, `openssl`, `openssl-vendored`. -/
structure FeatureSet where
  secure : Bool
  openssl : Bool
  opensslVendored : Bool
deriving DecidableEq, Repr

/-- Status of a vendored module directory as observed by
`is_directory_empty` (build.rs lines 49-52): `missing` when `read_dir`
errors, `empty` when it yields no entry, `nonEmpty` otherwise. -/
inductive DirStatus where
  | missing
  | empty
  | nonEmpty
deriving DecidableEq, Repr

/-- The four unconditionally required vendored modules
(build.rs lines 27-32). -/
def base_modules : List String :=
  ["grpc",
   "grpc/third_party/cares/cares",
   "grpc/third_party/address_sorting",
   "grpc/third_party/abseil-cpp"]

/-- Required modules for a feature combination (build.rs lines 27-36):
the base four, plus the vendored BoringSSL module when the `secure`
feature is on and the `openssl` feature is off. -/
def modules (secure openssl : Bool) : List String :=
  base_modules ++
    (if secure && !openssl then ["grpc/third_party/boringssl-with-bazel"] else [])

/-- The panic message of `prepare_grpc` (build.rs lines 40-45) with the
placeholders filled in. -/
def module_panic_msg (m : String) : String :=
  "Can't find module " ++ m ++
    ". You need to run `git submodule update --init --recursive` first to build the project."

/-- Embeds `prepare_grpc` (build.rs lines 26-47).  The directory oracle
`dir` stands for the file system.  The loop panics at the first module
whose directory is missing or empty (`is_directory_empty(..).unwrap_or(true)`
is `true` exactly when `read_dir` errors or the directory has no entry);
the result is `some` of the panic message, or `none` on success. -/
def prepare_grpc (secure openssl : Bool) (dir : String → DirStatus) : Option String :=
  ((modules secure openssl).find? (fun m => decide (dir m ≠ DirStatus.nonEmpty))).map
    module_panic_msg

/-- The initial third-party library subdirectory list
(build.rs lines 65-72). -/
def third_party_base : List String :=
  ["cares/cares/lib",
   "abseil-cpp/absl/strings",
   "abseil-cpp/absl/time",
   "abseil-cpp/absl/base",
   "abseil-cpp/absl/types",
   "abseil-cpp/absl/numeric"]

/-- The third-party subdirectory list after the conditional extension at
build.rs lines 143-145: BoringSSL is appended when `secure` is on and
`openssl` is off. -/
def grpc_third_party (fs : FeatureSet) : List String :=
  third_party_base ++
    (if fs.secure && !fs.openssl then ["boringssl-with-bazel"] else [])

/-- The static libraries linked at build.rs lines 180-207, in print order;
the top-level `library` argument (`"grpc"` or `"grpc_unsecure"`) is last. -/
def core_static_libs (library : String) : List String :=
  ["z", "cares", "address_sorting",
   "absl_base", "absl_raw_logging_internal", "absl_dynamic_annotations",
   "absl_throw_delegate", "absl_log_severity", "absl_spinlock_wait",
   "absl_strings", "absl_strings_internal", "absl_str_format_internal",
   "absl_civil_time", "absl_time_zone", "absl_time",
   "absl_bad_optional_access", "absl_int128",
   "gpr", "upb", library]

/-- The profile subdirectory selection at build.rs lines 158-161:
`"bench"` and `"release"` map to `"Release"`, everything else to
`"Debug"`. -/
def profile_dir (profile : String) : String :=
  if profile = "bench" ∨ profile = "release" then "Release" else "Debug"

/-- The search-path directives printed at build.rs lines 156-177: on
`windows` one per third-party subdirectory suffixed with the profile
subdirectory (after the top-level build directory), elsewhere a single
flat set. -/
def link_search_dirs (bt : BuildTarget) (build_dir : String)
    (third_party : List String) : List Directive :=
  if bt.targetOs = some "windows" then
    Directive.searchPath (build_dir ++ "/" ++ profile_dir bt.profile) ::
      third_party.map (fun p =>
        Directive.searchPath (build_dir ++ "/third_party/" ++ p ++ "/" ++ profile_dir bt.profile))
  else
    Directive.searchPath build_dir ::
      third_party.map (fun p => Directive.searchPath (build_dir ++ "/third_party/" ++ p))

/-- The `CoreFoundation` framework directive printed at build.rs
lines 82-86 when the target OS is `macos` or `ios`. -/
def apple_framework_dirs (bt : BuildTarget) : List Directive :=
  if bt.targetOs = some "macos" ∨ bt.targetOs = some "ios" then
    [Directive.linkLib LinkKind.framework "CoreFoundation"]
  else []

/-- The two cache key prefixes scanned for at build.rs lines 227-228. -/
def OPENSSL_CRYPTO_KEY : String := "OPENSSL_CRYPTO_LIBRARY:FILEPATH="

/-- The SSL-library cache key prefix (build.rs line 228). -/
def OPENSSL_SSL_KEY : String := "OPENSSL_SSL_LIBRARY:FILEPATH="

/-- The per-line match of `figure_ssl_path` (build.rs lines 227-228):
the crypto key is tried first, then the ssl key. -/
def sslValue (l : String) : Option String :=
  match trim_start l OPENSSL_CRYPTO_KEY with
  | some v => some v
  | none => trim_start l OPENSSL_SSL_KEY

/-- The panic message of `Option::unwrap` on `None`, raised at build.rs
line 233 when a matched value has no parent directory. -/
def unwrap_none_msg : String := "called Option::unwrap on a None value"

/-- The scanning loop of `figure_ssl_path` (build.rs lines 224-237):
returns the search-path directives emitted before the loop ends or
panics, the match count, and the panic (if any).  A matched line whose
value has no parent directory aborts the loop via `unwrap`. -/
def sslScanLines : List String → List Directive × Nat × Option String
  | [] => ([], 0, none)
  | l :: rest =>
    match sslValue l with
    | none => sslScanLines rest
    | some v =>
      match pathParent v with
      | none => ([], 0, some unwrap_none_msg)
      | some p =>
        (Directive.searchPath p :: (sslScanLines rest).1,
         (sslScanLines rest).2.1 + 1,
         (sslScanLines rest).2.2)

/-- The count-mismatch panic message of `figure_ssl_path` (build.rs
lines 238-243) with the placeholders filled in. -/
def cache_invalid_msg (path : String) (cnt : Nat) : String :=
  "CMake cache invalid, file " ++ path ++ " contains " ++ toString cnt ++ " ssl keys!"

/-- Embeds `figure_ssl_path` (build.rs lines 221-246) over the cache
file's lines: scans for the two key prefixes, printing one search-path
directive per match (the match's parent directory); panics if the count
is not exactly two; otherwise also prints plain (non-static) `ssl` and
`crypto` link directives.  Returns the directives emitted before any
panic together with the panic message, if one was raised. -/
def figure_ssl_path (build_dir : String) (cache : List String) :
    List Directive × Option String :=
  let path := build_dir ++ "/CMakeCache.txt"
  match sslScanLines cache with
  | (ds, _, some m) => (ds, some m)
  | (ds, cnt, none) =>
    if cnt ≠ 2 then (ds, some (cache_invalid_msg path cnt))
    else (ds ++ [Directive.linkLib LinkKind.normal "ssl",
                 Directive.linkLib LinkKind.normal "crypto"], none)

/-- Embeds `setup_libz` (build.rs lines 248-263).  `pre` is the prior
value of `CMAKE_PREFIX_PATH` (absent or a value); the result is the pair
of the two printed search-path directives and the environment writes
performed (the single `env::set_var` at line 262, appending
`{DEP_Z_ROOT}/build` to the prior value with a `;` separator). -/
def setup_libz (zlib_root : String) (pre : Option String) :
    List Directive × List (String × String) :=
  let prefix_path :=
    match pre with
    | some p => p ++ ";" ++ zlib_root ++ "/build"
    | none => zlib_root ++ "/build"
  ([Directive.searchPath (zlib_root ++ "/build"),
    Directive.searchPath (zlib_root ++ "/lib")],
   [("CMAKE_PREFIX_PATH", prefix_path)])

/-- The crypto part of the link plan (build.rs lines 209-216): with
`secure` and a non-vendored `openssl`, the SSL Library Locator's output;
with `secure` otherwise, static `ssl` and `crypto`; without `secure`,
nothing.  Second component: the locator's panic, if any. -/
def ssl_part (fs : FeatureSet) (build_dir : String) (cache : List String) :
    List Directive × Option String :=
  if fs.secure then
    if fs.openssl && !fs.opensslVendored then figure_ssl_path build_dir cache
    else ([Directive.linkLib LinkKind.static "ssl",
           Directive.linkLib LinkKind.static "crypto"], none)
  else ([], none)

/-- The observable outcome of a `build_grpc` run: the ordered `cargo:`
link directives printed, the environment-variable writes performed, and
the panic message if the run aborted. -/
structure BuildOutput where
  directives : List Directive
  envWrites : List (String × String)
  panicMsg : Option String
deriving DecidableEq, Repr

/-- Embeds the directive- and environment-effecting behaviour of
`build_grpc` (build.rs lines 62-219).  Inputs: the build target, the
feature set, the directory-status oracle (for `prepare_grpc`), the CMake
output directory `dst`, the `DEP_Z_ROOT` value, the prior
`CMAKE_PREFIX_PATH`, the cache file lines (for `figure_ssl_path`) and
the top-level library name.  Print order follows the source: the Apple
framework directive (line 85), `setup_libz`'s search paths (line 152),
the build-tree search paths (lines 156-177), the static libraries
(lines 180-207), then the crypto part (lines 209-216).  A `prepare_grpc`
panic aborts before any directive or environment write. -/
def build_grpc (bt : BuildTarget) (fs : FeatureSet) (dir : String → DirStatus)
    (dst zlib_root : String) (pre : Option String) (cache : List String)
    (library : String) : BuildOutput :=
  match prepare_grpc fs.secure fs.openssl dir with
  | some m => ⟨[], [], some m⟩
  | none =>
    let build_dir := dst ++ "/build"
    ⟨apple_framework_dirs bt ++ (setup_libz zlib_root pre).1 ++
       link_search_dirs bt build_dir (grpc_third_party fs) ++
       (core_static_libs library).map (Directive.linkLib LinkKind.static) ++
       (ssl_part fs build_dir cache).1,
     (setup_libz zlib_root pre).2,
     (ssl_part fs build_dir cache).2⟩

/-- Result of `config_binding_path`: whether `bindgen_grpc` ran, the
binding file path it used, and the value communicated onward via the
`cargo:rustc-env=BINDING_PATH=` directive. -/
structure BindingResult where
  ranBindgen : Bool
  file_path : String
  bindingPathVar : String
deriving DecidableEq, Repr

/-- Embeds `config_binding_path` (build.rs lines 338-364).  For the two
pre-generated target triples the checked-in path under
`{CARGO_MANIFEST_DIR}/bindings` is used and `bindgen_grpc` runs only
when `UPDATE_BIND` is `"1"`; for every other triple `bindgen_grpc`
always runs, writing to `{OUT_DIR}/grpc-bindings.rs`.  In either case
`BINDING_PATH` is set to the chosen path. -/
def config_binding_path (target : String) (updateBind : Option String)
    (manifestDir outDir : String) : BindingResult :=
  if target = "x86_64-unknown-linux-gnu" ∨ target = "aarch64-unknown-linux-gnu" then
    let fp := manifestDir ++ "/bindings/" ++ target ++ "-bindings.rs"
    ⟨decide (updateBind = some "1"), fp, fp⟩
  else
    let fp := outDir ++ "/grpc-bindings.rs"
    ⟨true, fp, fp⟩

/-- Whether a pattern occurs as a contiguous sublist; models
`str::contains` on the character level. -/
def hasSub (pat : List Char) : List Char → Bool
  | [] => pat.isPrefixOf []
  | c :: rest => pat.isPrefixOf (c :: rest) || hasSub pat rest

/-- The API-marker test of `bindgen_grpc` (build.rs line 290): the file
content contains `GRPCAPI` or `GPRAPI`. -/
def content_has_api (content : String) : Bool :=
  hasSub "GRPCAPI".toList content.toList || hasSub "GPRAPI".toList content.toList

/-- One entry of the recursive directory walk over `grpc/include`: its
path, whether it is a regular file, and its content. -/
structure DirEntry where
  path : String
  isFile : Bool
  content : String
deriving DecidableEq, Repr

/-- Embeds the header-scanning part of `bindgen_grpc` (build.rs
lines 280-296): keep each regular file whose content has an API marker,
collect the paths in walk order, then sort them.  (`Vec::sort` on
strings is modelled by a stable sort under the lexicographic order.) -/
def scan_headers (tree : List DirEntry) : List String :=
  List.insertionSort (· ≤ ·)
    ((tree.filter (fun d => d.isFile && content_has_api d.content)).map
      (fun d => d.path))

/-- Whether a directive is a search-path directive. -/
def isSearch : Directive → Bool
  | Directive.searchPath _ => true
  | Directive.linkLib _ _ => false

/-- The search paths of a directive sequence, in emission order. -/
def searchNames (ds : List Directive) : List String :=
  ds.filterMap fun d =>
    match d with
    | Directive.searchPath p => some p
    | Directive.linkLib _ _ => none

/-- The names of the static-kind library directives of a sequence, in
emission order. -/
def staticLibNames (ds : List Directive) : List String :=
  ds.filterMap fun d =>
    match d with
    | Directive.linkLib LinkKind.static n => some n
    | _ => none

/-- True when no search-path directive occurs after a library directive
in the sequence (all search paths precede the first library). -/
def noSearchAfterLib (ds : List Directive) : Bool :=
  (ds.dropWhile isSearch).all fun d => !isSearch d

/-- True when the line either matches no cache key or its matched value
has a parent directory (so the `unwrap` at build.rs line 233 cannot
panic on it). -/
def valueParentOk (l : String) : Bool :=
  match sslValue l with
  | none => true
  | some v => (pathParent v).isSome

/-- Number of cache lines matching one of the two expected key
prefixes. -/
def ssl_match_count (cache : List String) : Nat :=
  cache.countP fun l => (sslValue l).isSome

theorem searchNames_append (a b : List Directive) :
    searchNames (a ++ b) = searchNames a ++ searchNames b := by
  simp [searchNames, List.filterMap_append]

theorem staticLibNames_append (a b : List Directive) :
    staticLibNames (a ++ b) = staticLibNames a ++ staticLibNames b := by
  simp [staticLibNames, List.filterMap_append]

theorem staticLibNames_map_static (l : List String) :
    staticLibNames (l.map (Directive.linkLib LinkKind.static)) = l := by
  induction l with
  | nil => rfl
  | cons a t ih => simpa [staticLibNames, List.filterMap_cons] using ih

theorem searchNames_map_search (f : String → String) (l : List String) :
    searchNames (l.map fun p => Directive.searchPath (f p)) = l.map f := by
  induction l with
  | nil => rfl
  | cons a t ih => simpa [searchNames, List.filterMap_cons] using ih

theorem staticLibNames_map_search (f : String → String) (l : List String) :
    staticLibNames (l.map fun p => Directive.searchPath (f p)) = [] := by
  unfold staticLibNames
  rw [List.filterMap_eq_nil_iff.mpr]
  intro d hd
  rcases List.mem_map.mp hd with ⟨a, _, rfl⟩
  rfl

theorem staticLibNames_apple (bt : BuildTarget) :
    staticLibNames (apple_framework_dirs bt) = [] := by
  unfold apple_framework_dirs
  split <;> rfl

theorem staticLibNames_link_search_dirs (bt : BuildTarget) (bd : String)
    (tp : List String) : staticLibNames (link_search_dirs bt bd tp) = [] := by
  unfold link_search_dirs
  split <;>
    simp [staticLibNames, List.filterMap_cons, staticLibNames_map_search _ tp]

theorem sslScanLines_all_search (cache : List String) :
    ∀ d ∈ (sslScanLines cache).1, isSearch d = true := by
  induction cache with
  | nil => simp [sslScanLines]
  | cons l rest ih =>
    cases hv : sslValue l with
    | none => simpa [sslScanLines, hv] using ih
    | some v =>
      cases hp : pathParent v with
      | none => simp [sslScanLines, hv, hp]
      | some p =>
        simp only [sslScanLines, hv, hp]
        intro d hd
        rcases List.mem_cons.mp hd with h | h
        · subst h; rfl
        · exact ih d h

theorem staticLibNames_sslScan (cache : List String) :
    staticLibNames (sslScanLines cache).1 = [] := by
  unfold staticLibNames
  rw [List.filterMap_eq_nil_iff.mpr]
  intro d hd
  have := sslScanLines_all_search cache d hd
  cases d with
  | searchPath p => rfl
  | linkLib k n => simp [isSearch] at this

theorem sslScan_ok (cache : List String)
    (h : ∀ l ∈ cache, valueParentOk l = true) :
    sslScanLines cache =
      ((cache.filterMap fun l => (sslValue l).bind pathParent).map Directive.searchPath,
       ssl_match_count cache, none) := by
  induction cache with
  | nil => rfl
  | cons l rest ih =>
    have hl := h l (by simp)
    have hrest := ih fun x hx => h x (List.mem_cons_of_mem _ hx)
    simp only [sslScanLines, ssl_match_count, List.filterMap_cons, List.countP_cons]
    cases hv : sslValue l with
    | none =>
      simpa [ssl_match_count, hv] using hrest
    | some v =>
      cases hp : pathParent v with
      | none => simp [valueParentOk, hv, hp] at hl
      | some p =>
        simp [hrest, ssl_match_count, hv, hp, Nat.add_comm]

theorem noSearchAfterLib_of_split (ss ls : List Directive)
    (hs : ∀ d ∈ ss, isSearch d = true) (hl : ∀ d ∈ ls, isSearch d = false) :
    noSearchAfterLib (ss ++ ls) = true := by
  induction ss with
  | nil =>
    simp only [List.nil_append, noSearchAfterLib]
    cases ls with
    | nil => rfl
    | cons a t =>
      rw [List.dropWhile_cons, hl a (by simp)]
      simp only [Bool.false_eq_true, if_false, List.all_eq_true]
      intro d hd
      simp [hl d hd]
  | cons s ss ih =>
    simp only [noSearchAfterLib, List.cons_append, List.dropWhile_cons,
      hs s (by simp), if_true]
    exact ih fun d hd => hs d (List.mem_cons_of_mem _ hd)

theorem build_grpc_of_prepare_none (bt : BuildTarget) (fs : FeatureSet)
    (dir : String → DirStatus) (dst zlib_root : String) (pre : Option String)
    (cache : List String) (library : String)
    (hp : prepare_grpc fs.secure fs.openssl dir = none) :
    build_grpc bt fs dir dst zlib_root pre cache library =
      ⟨apple_framework_dirs bt ++ (setup_libz zlib_root pre).1 ++
         link_search_dirs bt (dst ++ "/build") (grpc_third_party fs) ++
         (core_static_libs library).map (Directive.linkLib LinkKind.static) ++
         (ssl_part fs (dst ++ "/build") cache).1,
       (setup_libz zlib_root pre).2,
       (ssl_part fs (dst ++ "/build") cache).2⟩ := by
  simp [build_grpc, hp]

theorem prepare_none_of_panic_none (bt : BuildTarget) (fs : FeatureSet)
    (dir : String → DirStatus) (dst zlib_root : String) (pre : Option String)
    (cache : List String) (library : String)
    (h : (build_grpc bt fs dir dst zlib_root pre cache library).panicMsg = none) :
    prepare_grpc fs.secure fs.openssl dir = none := by
  cases hp : prepare_grpc fs.secure fs.openssl dir with
  | none => rfl
  | some m => simp [build_grpc, hp] at h

/-- The top-level library selection in `main` (build.rs lines 376-382):
`"grpc"` when the `secure` feature is on, `"grpc_unsecure"` otherwise. -/
def top_level_library (fs : FeatureSet) : String :=
  if fs.secure then "grpc" else "grpc_unsecure"

theorem apple_framework_dirs_nil (bt : BuildTarget)
    (h1 : bt.targetOs ≠ some "macos") (h2 : bt.targetOs ≠ some "ios") :
    apple_framework_dirs bt = [] := by
  unfold apple_framework_dirs
  rw [if_neg]
  rintro (h | h) <;> simp_all

theorem searchNames_apple (bt : BuildTarget) :
    searchNames (apple_framework_dirs bt) = [] := by
  unfold apple_framework_dirs
  split <;> rfl

theorem searchNames_map_static (l : List String) :
    searchNames (l.map (Directive.linkLib LinkKind.static)) = [] := by
  unfold searchNames
  rw [List.filterMap_eq_nil_iff.mpr]
  intro d hd
  rcases List.mem_map.mp hd with ⟨a, _, rfl⟩
  rfl

theorem isSearch_link_search_dirs (bt : BuildTarget) (bd : String)
    (tp : List String) : ∀ d ∈ link_search_dirs bt bd tp, isSearch d = true := by
  unfold link_search_dirs
  split <;>
  · intro d hd
    rcases List.mem_cons.mp hd with h | h
    · subst h; rfl
    · rcases List.mem_map.mp h with ⟨a, _, rfl⟩; rfl

theorem figure_linkLib_mem (bd : String) (cache : List String) (k : LinkKind)
    (n : String) (h : Directive.linkLib k n ∈ (figure_ssl_path bd cache).1) :
    k = LinkKind.normal ∧ (n = "ssl" ∨ n = "crypto") := by
  have hall := sslScanLines_all_search cache
  unfold figure_ssl_path at h
  rcases hscan : sslScanLines cache with ⟨ds, cnt, pan⟩
  rw [hscan] at h hall
  have hds : Directive.linkLib k n ∉ ds := fun hmem => by
    have := hall _ hmem
    simp [isSearch] at this
  cases pan with
  | some m => exact absurd h hds
  | none =>
    simp only at h
    split at h
    · exact absurd h hds
    · rcases List.mem_append.mp h with h | h
      · exact absurd h hds
      · rcases List.mem_cons.mp h with h | h
        · cases h; exact ⟨rfl, Or.inl rfl⟩
        · rcases List.mem_cons.mp h with h | h
          · cases h; exact ⟨rfl, Or.inr rfl⟩
          · simp at h

theorem staticLibNames_figure (bd : String) (cache : List String) :
    staticLibNames (figure_ssl_path bd cache).1 = [] := by
  have hds := staticLibNames_sslScan cache
  unfold figure_ssl_path
  rcases hscan : sslScanLines cache with ⟨ds, cnt, pan⟩
  rw [hscan] at hds
  simp only at hds
  cases pan with
  | some m => exact hds
  | none =>
    simp only
    split
    · exact hds
    · rw [staticLibNames_append, hds]
      rfl

theorem searchNames_setup_libz (zr : String) (pre : Option String) :
    searchNames (setup_libz zr pre).1 = [zr ++ "/build", zr ++ "/lib"] := by
  cases pre <;> rfl

theorem staticLibNames_setup_libz (zr : String) (pre : Option String) :
    staticLibNames (setup_libz zr pre).1 = [] := by
  cases pre <;> rfl

/-- C5: the required-module list with `secure` on and `openssl` off is a
strict superset (the base four plus the vendored BoringSSL module) of
the list under any other feature combination, and a missing or empty
required module makes the build abort with a message naming a missing
module, before any directive is emitted or any environment variable is
written. -/
theorem modules_superset_and_abort :
    (∀ s o : Bool, ¬(s = true ∧ o = false) →
      (∀ m ∈ modules s o, m ∈ modules true false) ∧
      (∃ m, m ∈ modules true false ∧ m ∉ modules s o) ∧
      modules s o = base_modules ∧
      modules true false = base_modules ++ ["grpc/third_party/boringssl-with-bazel"]) ∧
    (∀ (bt : BuildTarget) (fs : FeatureSet) (dir : String → DirStatus)
        (dst zlib_root : String) (pre : Option String) (cache : List String)
        (library m : String),
      m ∈ modules fs.secure fs.openssl → dir m ≠ DirStatus.nonEmpty →
      (build_grpc bt fs dir dst zlib_root pre cache library).directives = [] ∧
      (build_grpc bt fs dir dst zlib_root pre cache library).envWrites = [] ∧
      ∃ m2, m2 ∈ modules fs.secure fs.openssl ∧ dir m2 ≠ DirStatus.nonEmpty ∧
        (build_grpc bt fs dir dst zlib_root pre cache library).panicMsg =
          some (module_panic_msg m2)) := by
  constructor
  · intro s o hso
    cases s <;> cases o
    · exact ⟨by decide, by decide, by decide, by decide⟩
    · exact ⟨by decide, by decide, by decide, by decide⟩
    · exact absurd ⟨rfl, rfl⟩ hso
    · exact ⟨by decide, by decide, by decide, by decide⟩
  · intro bt fs dir dst zr pre cache lib m hm hdir
    have hsome : ((modules fs.secure fs.openssl).find?
        (fun mm => decide (dir mm ≠ DirStatus.nonEmpty))).isSome :=
      List.find?_isSome.mpr ⟨m, hm, decide_eq_true hdir⟩
    obtain ⟨m2, hm2⟩ := Option.isSome_iff_exists.mp hsome
    have hmem2 := List.mem_of_find?_eq_some hm2
    have hdir2 : dir m2 ≠ DirStatus.nonEmpty :=
      of_decide_eq_true
        (@List.find?_some String (fun mm => decide (dir mm ≠ DirStatus.nonEmpty))
          m2 (modules fs.secure fs.openssl) hm2)
    have hprep : prepare_grpc fs.secure fs.openssl dir = some (module_panic_msg m2) := by
      unfold prepare_grpc
      rw [hm2]
      rfl
    exact ⟨by simp [build_grpc, hprep], by simp [build_grpc, hprep],
           m2, hmem2, hdir2, by simp [build_grpc, hprep]⟩

/-- Witness for C5 at concrete inputs: non-secure modules embed into the
secure-without-openssl list, and an empty module directory yields an
empty directive list. -/
theorem modules_superset_and_abort_witness :
    ("grpc" ∈ modules false false → "grpc" ∈ modules true false) ∧
    (build_grpc ⟨some "linux", "release"⟩ ⟨true, false, false⟩
        (fun _ => DirStatus.empty) "D" "Z" none [] "grpc").directives = [] :=
  ⟨fun h => (modules_superset_and_abort.1 false false (by simp)).1 "grpc" h,
   (modules_superset_and_abort.2 ⟨some "linux", "release"⟩ ⟨true, false, false⟩
      (fun _ => DirStatus.empty) "D" "Z" none [] "grpc" "grpc"
      (by decide) (by decide)).1⟩

/-- C7: exactly the two pre-generated linux-gnu triples reuse the
checked-in binding file (regenerating in place only under
`UPDATE_BIND=1`), every other triple always regenerates into the
run-scoped output directory, and the chosen path is always the one
communicated through the `BINDING_PATH` build-time variable. -/
theorem binding_path_resolver_spec :
    ∀ (target : String) (updateBind : Option String) (manifestDir outDir : String),
      ((config_binding_path target updateBind manifestDir outDir).bindingPathVar =
        (config_binding_path target updateBind manifestDir outDir).file_path) ∧
      ((target = "x86_64-unknown-linux-gnu" ∨ target = "aarch64-unknown-linux-gnu") →
        (config_binding_path target updateBind manifestDir outDir).file_path =
          manifestDir ++ "/bindings/" ++ target ++ "-bindings.rs" ∧
        ((config_binding_path target updateBind manifestDir outDir).ranBindgen = true ↔
          updateBind = some "1")) ∧
      (¬(target = "x86_64-unknown-linux-gnu" ∨ target = "aarch64-unknown-linux-gnu") →
        (config_binding_path target updateBind manifestDir outDir).ranBindgen = true ∧
        (config_binding_path target updateBind manifestDir outDir).file_path =
          outDir ++ "/grpc-bindings.rs") ∧
      ((config_binding_path target updateBind manifestDir outDir).ranBindgen = false →
        (target = "x86_64-unknown-linux-gnu" ∨ target = "aarch64-unknown-linux-gnu") ∧
        updateBind ≠ some "1") := by
  intro t u m o
  unfold config_binding_path
  by_cases h : t = "x86_64-unknown-linux-gnu" ∨ t = "aarch64-unknown-linux-gnu" <;>
    simp [h]

/-- Witness for C7: the primary reuse triple with no override keeps the
checked-in path and does not run the generator. -/
theorem binding_path_resolver_spec_witness :
    (config_binding_path "x86_64-unknown-linux-gnu" none "M" "O").file_path =
      "M" ++ "/bindings/" ++ "x86_64-unknown-linux-gnu" ++ "-bindings.rs" ∧
    ((config_binding_path "x86_64-unknown-linux-gnu" none "M" "O").ranBindgen = true ↔
      (none : Option String) = some "1") :=
  (binding_path_resolver_spec "x86_64-unknown-linux-gnu" none "M" "O").2.1 (Or.inl rfl)

/-- C10: the locator checks only the total number of matching lines: on a
cache where the crypto key appears on two lines and the ssl key on
none, it succeeds, emitting two search-path directives for the two
crypto matches' parent directories. -/
theorem ssl_locator_counts_only_total :
    (List.countP (fun l => (trim_start l OPENSSL_CRYPTO_KEY).isSome)
      ["OPENSSL_CRYPTO_LIBRARY:FILEPATH=/a/libcrypto.a",
       "OPENSSL_CRYPTO_LIBRARY:FILEPATH=/b/libcrypto.a"] = 2) ∧
    (List.countP (fun l => (trim_start l OPENSSL_SSL_KEY).isSome)
      ["OPENSSL_CRYPTO_LIBRARY:FILEPATH=/a/libcrypto.a",
       "OPENSSL_CRYPTO_LIBRARY:FILEPATH=/b/libcrypto.a"] = 0) ∧
    figure_ssl_path "BUILD"
      ["OPENSSL_CRYPTO_LIBRARY:FILEPATH=/a/libcrypto.a",
       "OPENSSL_CRYPTO_LIBRARY:FILEPATH=/b/libcrypto.a"] =
      ([Directive.searchPath "/a", Directive.searchPath "/b",
        Directive.linkLib LinkKind.normal "ssl",
        Directive.linkLib LinkKind.normal "crypto"], none) := by
  decide

/-- Counterexample for C4: a cache with exactly two matching lines whose
values are empty makes the locator panic (the parent-directory `unwrap`
fires) instead of succeeding. -/
theorem ssl_locator_two_matches_can_panic :
    ssl_match_count
      ["OPENSSL_CRYPTO_LIBRARY:FILEPATH=", "OPENSSL_SSL_LIBRARY:FILEPATH="] = 2 ∧
    (figure_ssl_path "BUILD"
      ["OPENSSL_CRYPTO_LIBRARY:FILEPATH=", "OPENSSL_SSL_LIBRARY:FILEPATH="]).2 =
      some unwrap_none_msg := by
  decide

/-- C4 amended: provided every matched line's value has a parent
directory, the locator succeeds exactly when the match count is two,
emitting one search-path directive per match referencing that match's
parent directory (followed by the `ssl` and `crypto` link directives);
with any other count it fails fatally reporting the actual count and
the cache path. -/
theorem ssl_locator_count_validation :
    ∀ (build_dir : String) (cache : List String),
      (∀ l ∈ cache, valueParentOk l = true) →
      (if ssl_match_count cache = 2 then
        figure_ssl_path build_dir cache =
          ((cache.filterMap fun l => (sslValue l).bind pathParent).map
             Directive.searchPath ++
           [Directive.linkLib LinkKind.normal "ssl",
            Directive.linkLib LinkKind.normal "crypto"], none)
      else
        figure_ssl_path build_dir cache =
          ((cache.filterMap fun l => (sslValue l).bind pathParent).map
             Directive.searchPath,
           some (cache_invalid_msg (build_dir ++ "/CMakeCache.txt")
             (ssl_match_count cache)))) := by
  intro bd cache h
  have hs := sslScan_ok cache h
  by_cases h2 : ssl_match_count cache = 2 <;>
    simp [figure_ssl_path, hs, h2]

/-- Witness for C4 at a concrete two-entry cache. -/
theorem ssl_locator_count_validation_witness :
    (∀ l ∈ ["OPENSSL_CRYPTO_LIBRARY:FILEPATH=/a/libcrypto.a",
            "OPENSSL_SSL_LIBRARY:FILEPATH=/b/libssl.a"], valueParentOk l = true) ∧
    (if ssl_match_count ["OPENSSL_CRYPTO_LIBRARY:FILEPATH=/a/libcrypto.a",
            "OPENSSL_SSL_LIBRARY:FILEPATH=/b/libssl.a"] = 2 then
      figure_ssl_path "BUILD" ["OPENSSL_CRYPTO_LIBRARY:FILEPATH=/a/libcrypto.a",
            "OPENSSL_SSL_LIBRARY:FILEPATH=/b/libssl.a"] =
        ((["OPENSSL_CRYPTO_LIBRARY:FILEPATH=/a/libcrypto.a",
            "OPENSSL_SSL_LIBRARY:FILEPATH=/b/libssl.a"].filterMap
             fun l => (sslValue l).bind pathParent).map Directive.searchPath ++
         [Directive.linkLib LinkKind.normal "ssl",
          Directive.linkLib LinkKind.normal "crypto"], none)
    else
      figure_ssl_path "BUILD" ["OPENSSL_CRYPTO_LIBRARY:FILEPATH=/a/libcrypto.a",
            "OPENSSL_SSL_LIBRARY:FILEPATH=/b/libssl.a"] =
        ((["OPENSSL_CRYPTO_LIBRARY:FILEPATH=/a/libcrypto.a",
            "OPENSSL_SSL_LIBRARY:FILEPATH=/b/libssl.a"].filterMap
             fun l => (sslValue l).bind pathParent).map Directive.searchPath,
         some (cache_invalid_msg ("BUILD" ++ "/CMakeCache.txt")
           (ssl_match_count ["OPENSSL_CRYPTO_LIBRARY:FILEPATH=/a/libcrypto.a",
            "OPENSSL_SSL_LIBRARY:FILEPATH=/b/libssl.a"])))) :=
  ⟨by decide,
   ssl_locator_count_validation "BUILD"
     ["OPENSSL_CRYPTO_LIBRARY:FILEPATH=/a/libcrypto.a",
      "OPENSSL_SSL_LIBRARY:FILEPATH=/b/libssl.a"] (by decide)⟩

theorem staticLibNames_static_pair :
    staticLibNames [Directive.linkLib LinkKind.static "ssl",
      Directive.linkLib LinkKind.static "crypto"] = ["ssl", "crypto"] := rfl

theorem staticLibNames_nil : staticLibNames [] = [] := rfl

/-- Counterexample for C1: with the secure feature on and the vendored
crypto backend (no `openssl` feature), the run succeeds and the last
static-library directive is `crypto`, not the requested top-level `grpc`
library. -/
theorem vendored_crypto_follows_top_library :
    top_level_library ⟨true, false, false⟩ = "grpc" ∧
    (build_grpc ⟨some "linux", "release"⟩ ⟨true, false, false⟩
        (fun _ => DirStatus.nonEmpty) "D" "Z" none [] "grpc").panicMsg = none ∧
    (staticLibNames (build_grpc ⟨some "linux", "release"⟩ ⟨true, false, false⟩
        (fun _ => DirStatus.nonEmpty) "D" "Z" none [] "grpc").directives).getLast? =
      some "crypto" := by
  decide

/-- C1 amended: in every run of the Link Plan Assembler the static-library
directives are the fixed core list ending in the requested top-level
library, followed by nothing when crypto is external (or the build is
non-secure), and followed by exactly the static `ssl` and `crypto`
libraries when the secure feature uses a statically built crypto backend
(vendored BoringSSL, or vendored OpenSSL). -/
theorem static_lib_order :
    ∀ (bt : BuildTarget) (fs : FeatureSet) (dir : String → DirStatus)
      (dst zlib_root : String) (pre : Option String) (cache : List String),
      (build_grpc bt fs dir dst zlib_root pre cache
        (top_level_library fs)).panicMsg = none →
      staticLibNames (build_grpc bt fs dir dst zlib_root pre cache
          (top_level_library fs)).directives =
        core_static_libs (top_level_library fs) ++
          (if fs.secure && !(fs.openssl && !fs.opensslVendored) then ["ssl", "crypto"]
           else []) := by
  intro bt fs dir dst zr pre cache h
  have hp := prepare_none_of_panic_none bt fs dir dst zr pre cache _ h
  rw [build_grpc_of_prepare_none bt fs dir dst zr pre cache _ hp]
  simp only [staticLibNames_append, staticLibNames_apple, staticLibNames_setup_libz,
    staticLibNames_link_search_dirs, staticLibNames_map_static, List.nil_append,
    List.append_nil]
  rcases fs with ⟨s, o, v⟩
  cases s <;> cases o <;> cases v <;>
    simp [ssl_part, staticLibNames_figure, staticLibNames_static_pair, staticLibNames_nil]

/-- Witness for C1 at a concrete non-secure run: the static libraries are
exactly the core list ending in `grpc_unsecure`. -/
theorem static_lib_order_witness :
    (build_grpc ⟨some "linux", "release"⟩ ⟨false, false, false⟩
        (fun _ => DirStatus.nonEmpty) "D" "Z" none []
        (top_level_library ⟨false, false, false⟩)).panicMsg = none ∧
    staticLibNames (build_grpc ⟨some "linux", "release"⟩ ⟨false, false, false⟩
        (fun _ => DirStatus.nonEmpty) "D" "Z" none []
        (top_level_library ⟨false, false, false⟩)).directives =
      core_static_libs "grpc_unsecure" := by
  refine ⟨by decide, ?_⟩
  have h := static_lib_order ⟨some "linux", "release"⟩ ⟨false, false, false⟩
    (fun _ => DirStatus.nonEmpty) "D" "Z" none [] (by decide)
  simpa [top_level_library] using h

/-- Counterexample for C2: with the secure feature and a non-vendored
external OpenSSL, the SSL Library Locator's search-path directives are
emitted after the static-library directives, so the plan contains a
search-path directive after a library directive. -/
theorem ssl_locator_search_after_libs :
    (build_grpc ⟨some "linux", "debug"⟩ ⟨true, true, false⟩
        (fun _ => DirStatus.nonEmpty) "D" "Z" none
        ["OPENSSL_CRYPTO_LIBRARY:FILEPATH=/a/libcrypto.a",
         "OPENSSL_SSL_LIBRARY:FILEPATH=/b/libssl.a"] "grpc").panicMsg = none ∧
    noSearchAfterLib (build_grpc ⟨some "linux", "debug"⟩ ⟨true, true, false⟩
        (fun _ => DirStatus.nonEmpty) "D" "Z" none
        ["OPENSSL_CRYPTO_LIBRARY:FILEPATH=/a/libcrypto.a",
         "OPENSSL_SSL_LIBRARY:FILEPATH=/b/libssl.a"] "grpc").directives = false := by
  decide

/-- C2 amended: outside the Apple targets (whose CoreFoundation framework
directive precedes the search paths) and outside the
secure-with-external-non-vendored-crypto combination (whose locator
search paths follow the library block), every search-path directive of a
successful run precedes every library directive. -/
theorem search_dirs_precede_libs :
    ∀ (bt : BuildTarget) (fs : FeatureSet) (dir : String → DirStatus)
      (dst zlib_root : String) (pre : Option String) (cache : List String)
      (library : String),
      bt.targetOs ≠ some "macos" → bt.targetOs ≠ some "ios" →
      ¬(fs.secure = true ∧ fs.openssl = true ∧ fs.opensslVendored = false) →
      (build_grpc bt fs dir dst zlib_root pre cache library).panicMsg = none →
      noSearchAfterLib
        (build_grpc bt fs dir dst zlib_root pre cache library).directives = true := by
  intro bt fs dir dst zr pre cache lib h1 h2 h3 h
  have hp := prepare_none_of_panic_none bt fs dir dst zr pre cache lib h
  rw [build_grpc_of_prepare_none bt fs dir dst zr pre cache lib hp]
  simp only [apple_framework_dirs_nil bt h1 h2, List.nil_append]
  have hsplit :
      (setup_libz zr pre).1 ++ link_search_dirs bt (dst ++ "/build") (grpc_third_party fs) ++
        (core_static_libs lib).map (Directive.linkLib LinkKind.static) ++
        (ssl_part fs (dst ++ "/build") cache).1 =
      ((setup_libz zr pre).1 ++ link_search_dirs bt (dst ++ "/build") (grpc_third_party fs)) ++
        ((core_static_libs lib).map (Directive.linkLib LinkKind.static) ++
          (ssl_part fs (dst ++ "/build") cache).1) := by
    simp [List.append_assoc]
  rw [hsplit]
  apply noSearchAfterLib_of_split
  · intro d hd
    rcases List.mem_append.mp hd with hmem | hmem
    · cases pre <;> simp [setup_libz] at hmem <;>
        rcases hmem with rfl | rfl <;> rfl
    · exact isSearch_link_search_dirs bt _ _ d hmem
  · intro d hd
    rcases List.mem_append.mp hd with hmem | hmem
    · rcases List.mem_map.mp hmem with ⟨a, _, rfl⟩; rfl
    · rcases fs with ⟨s, o, v⟩
      cases s
      · simp [ssl_part] at hmem
      · cases o <;> cases v
        · simp [ssl_part] at hmem
          rcases hmem with rfl | rfl <;> rfl
        · simp [ssl_part] at hmem
          rcases hmem with rfl | rfl <;> rfl
        · exact absurd ⟨rfl, rfl, rfl⟩ h3
        · simp [ssl_part] at hmem
          rcases hmem with rfl | rfl <;> rfl

/-- Witness for C2 at a concrete non-secure linux run. -/
theorem search_dirs_precede_libs_witness :
    (build_grpc ⟨some "linux", "release"⟩ ⟨false, false, false⟩
        (fun _ => DirStatus.nonEmpty) "D" "Z" none [] "grpc_unsecure").panicMsg = none ∧
    noSearchAfterLib (build_grpc ⟨some "linux", "release"⟩ ⟨false, false, false⟩
        (fun _ => DirStatus.nonEmpty) "D" "Z" none [] "grpc_unsecure").directives = true :=
  ⟨by decide,
   search_dirs_precede_libs ⟨some "linux", "release"⟩ ⟨false, false, false⟩
     (fun _ => DirStatus.nonEmpty) "D" "Z" none [] "grpc_unsecure"
     (by decide) (by decide) (by decide) (by decide)⟩

/-- Counterexample for C3: with the secure feature and a non-vendored
external OpenSSL, the run succeeds and emits the `ssl` library with the
default (non-static) link kind. -/
theorem external_ssl_link_not_static :
    (build_grpc ⟨some "linux", "debug"⟩ ⟨true, true, false⟩
        (fun _ => DirStatus.nonEmpty) "D" "Z" none
        ["OPENSSL_CRYPTO_LIBRARY:FILEPATH=/a/libcrypto.a",
         "OPENSSL_SSL_LIBRARY:FILEPATH=/b/libssl.a"] "grpc").panicMsg = none ∧
    Directive.linkLib LinkKind.normal "ssl" ∈
      (build_grpc ⟨some "linux", "debug"⟩ ⟨true, true, false⟩
        (fun _ => DirStatus.nonEmpty) "D" "Z" none
        ["OPENSSL_CRYPTO_LIBRARY:FILEPATH=/a/libcrypto.a",
         "OPENSSL_SSL_LIBRARY:FILEPATH=/b/libssl.a"] "grpc").directives := by
  decide

/-- C3 amended: every library directive of a successful run is static,
except for the CoreFoundation framework directive on the Apple targets
and the default-kind `ssl`/`crypto` pair emitted by the SSL Library
Locator under secure with external non-vendored crypto. -/
theorem link_kinds_characterized :
    ∀ (bt : BuildTarget) (fs : FeatureSet) (dir : String → DirStatus)
      (dst zlib_root : String) (pre : Option String) (cache : List String)
      (library : String) (k : LinkKind) (n : String),
      (build_grpc bt fs dir dst zlib_root pre cache library).panicMsg = none →
      Directive.linkLib k n ∈
        (build_grpc bt fs dir dst zlib_root pre cache library).directives →
      k = LinkKind.static ∨
      (k = LinkKind.framework ∧ n = "CoreFoundation" ∧
        (bt.targetOs = some "macos" ∨ bt.targetOs = some "ios")) ∨
      (k = LinkKind.normal ∧ (n = "ssl" ∨ n = "crypto") ∧
        fs.secure = true ∧ fs.openssl = true ∧ fs.opensslVendored = false) := by
  intro bt fs dir dst zr pre cache lib k n h hmem
  have hp := prepare_none_of_panic_none bt fs dir dst zr pre cache lib h
  rw [build_grpc_of_prepare_none bt fs dir dst zr pre cache lib hp] at hmem
  rcases List.mem_append.mp hmem with hm | hm
  rcases List.mem_append.mp hm with hm | hm
  rcases List.mem_append.mp hm with hm | hm
  rcases List.mem_append.mp hm with hm | hm
  · by_cases hos : bt.targetOs = some "macos" ∨ bt.targetOs = some "ios"
    · simp [apple_framework_dirs, hos] at hm
      exact Or.inr (Or.inl ⟨hm.1, hm.2, hos⟩)
    · simp [apple_framework_dirs, hos] at hm
  · cases pre <;> simp [setup_libz] at hm
  · have := isSearch_link_search_dirs bt (dst ++ "/build") (grpc_third_party fs) _ hm
    simp [isSearch] at this
  · rcases List.mem_map.mp hm with ⟨a, _, ha⟩
    cases ha
    exact Or.inl rfl
  · rcases fs with ⟨s, o, v⟩
    cases s
    · simp [ssl_part] at hm
    · cases o <;> cases v
      · simp [ssl_part] at hm
        rcases hm with ⟨rfl, rfl⟩ | ⟨rfl, rfl⟩ <;> exact Or.inl rfl
      · simp [ssl_part] at hm
        rcases hm with ⟨rfl, rfl⟩ | ⟨rfl, rfl⟩ <;> exact Or.inl rfl
      · have := figure_linkLib_mem (dst ++ "/build") cache k n (by simpa [ssl_part] using hm)
        exact Or.inr (Or.inr ⟨this.1, this.2, rfl, rfl, rfl⟩)
      · simp [ssl_part] at hm
        rcases hm with ⟨rfl, rfl⟩ | ⟨rfl, rfl⟩ <;> exact Or.inl rfl

/-- Witness for C3: the `z` library directive of a concrete non-secure
run is classified static. -/
theorem link_kinds_characterized_witness :
    LinkKind.static = LinkKind.static ∨
    (LinkKind.static = LinkKind.framework ∧ "z" = "CoreFoundation" ∧
      ((⟨some "linux", "release"⟩ : BuildTarget).targetOs = some "macos" ∨
       (⟨some "linux", "release"⟩ : BuildTarget).targetOs = some "ios")) ∨
    (LinkKind.static = LinkKind.normal ∧ ("z" = "ssl" ∨ "z" = "crypto") ∧
      (⟨false, false, false⟩ : FeatureSet).secure = true ∧
      (⟨false, false, false⟩ : FeatureSet).openssl = true ∧
      (⟨false, false, false⟩ : FeatureSet).opensslVendored = false) :=
  link_kinds_characterized ⟨some "linux", "release"⟩ ⟨false, false, false⟩
    (fun _ => DirStatus.nonEmpty) "D" "Z" none [] "grpc_unsecure"
    LinkKind.static "z" (by decide) (by decide)

theorem searchNames_cons_search (p : String) (ds : List Directive) :
    searchNames (Directive.searchPath p :: ds) = p :: searchNames ds := by
  simp [searchNames, List.filterMap_cons]

theorem searchNames_link_search_dirs_win (bt : BuildTarget) (bd : String)
    (tp : List String) (h : bt.targetOs = some "windows") :
    searchNames (link_search_dirs bt bd tp) =
      (bd ++ "/" ++ profile_dir bt.profile) ::
        tp.map (fun p => bd ++ "/third_party/" ++ p ++ "/" ++ profile_dir bt.profile) := by
  unfold link_search_dirs
  rw [if_pos h, searchNames_cons_search]
  simp only [searchNames_map_search]

theorem searchNames_link_search_dirs_flat (bt : BuildTarget) (bd : String)
    (tp : List String) (h : ¬bt.targetOs = some "windows") :
    searchNames (link_search_dirs bt bd tp) =
      bd :: tp.map (fun p => bd ++ "/third_party/" ++ p) := by
  unfold link_search_dirs
  rw [if_neg h, searchNames_cons_search]
  simp only [searchNames_map_search]

/-- C6: on the `windows` target the build-tree search paths are the
top-level build directory plus one entry per third-party subdirectory,
each suffixed with the profile subdirectory (`bench` and `release` map to
`Release`, every other profile to `Debug`); on every other target a
single flat (non-suffixed) set is emitted.  The zlib search paths come
first and the SSL Library Locator's (if any) last. -/
theorem search_path_profile_layout :
    ∀ (bt : BuildTarget) (fs : FeatureSet) (dir : String → DirStatus)
      (dst zlib_root : String) (pre : Option String) (cache : List String)
      (library : String),
      (build_grpc bt fs dir dst zlib_root pre cache library).panicMsg = none →
      ((bt.targetOs = some "windows" →
        searchNames (build_grpc bt fs dir dst zlib_root pre cache library).directives =
          [zlib_root ++ "/build", zlib_root ++ "/lib"] ++
          ((dst ++ "/build" ++ "/" ++ profile_dir bt.profile) ::
            (grpc_third_party fs).map (fun p =>
              dst ++ "/build" ++ "/third_party/" ++ p ++ "/" ++ profile_dir bt.profile)) ++
          searchNames (ssl_part fs (dst ++ "/build") cache).1) ∧
       (bt.targetOs ≠ some "windows" →
        searchNames (build_grpc bt fs dir dst zlib_root pre cache library).directives =
          [zlib_root ++ "/build", zlib_root ++ "/lib"] ++
          ((dst ++ "/build") ::
            (grpc_third_party fs).map (fun p => dst ++ "/build" ++ "/third_party/" ++ p)) ++
          searchNames (ssl_part fs (dst ++ "/build") cache).1) ∧
       profile_dir "bench" = "Release" ∧
       profile_dir "release" = "Release" ∧
       (∀ p, p ≠ "bench" → p ≠ "release" → profile_dir p = "Debug")) := by
  intro bt fs dir dst zr pre cache lib h
  have hp := prepare_none_of_panic_none bt fs dir dst zr pre cache lib h
  rw [build_grpc_of_prepare_none bt fs dir dst zr pre cache lib hp]
  refine ⟨?_, ?_, by decide, by decide, ?_⟩
  · intro hw
    simp [searchNames_append, searchNames_apple, searchNames_setup_libz,
      searchNames_map_static, searchNames_link_search_dirs_win bt _ _ hw]
  · intro hw
    simp [searchNames_append, searchNames_apple, searchNames_setup_libz,
      searchNames_map_static, searchNames_link_search_dirs_flat bt _ _ hw]
  · intro p h1 h2
    unfold profile_dir
    rw [if_neg]
    rintro (hh | hh)
    · exact h1 hh
    · exact h2 hh

/-- Witness for C6 at a concrete windows bench run with the secure
(vendored) feature set. -/
theorem search_path_profile_layout_witness :
    (build_grpc ⟨some "windows", "bench"⟩ ⟨true, false, false⟩
        (fun _ => DirStatus.nonEmpty) "D" "Z" none [] "grpc").panicMsg = none ∧
    searchNames (build_grpc ⟨some "windows", "bench"⟩ ⟨true, false, false⟩
        (fun _ => DirStatus.nonEmpty) "D" "Z" none [] "grpc").directives =
      ["Z/build", "Z/lib",
       "D/build/Release",
       "D/build/third_party/cares/cares/lib/Release",
       "D/build/third_party/abseil-cpp/absl/strings/Release",
       "D/build/third_party/abseil-cpp/absl/time/Release",
       "D/build/third_party/abseil-cpp/absl/base/Release",
       "D/build/third_party/abseil-cpp/absl/types/Release",
       "D/build/third_party/abseil-cpp/absl/numeric/Release",
       "D/build/third_party/boringssl-with-bazel/Release"] := by
  refine ⟨by decide, ?_⟩
  have h := (search_path_profile_layout ⟨some "windows", "bench"⟩ ⟨true, false, false⟩
    (fun _ => DirStatus.nonEmpty) "D" "Z" none [] "grpc" (by decide)).1 rfl
  rw [h]
  decide

/-- C8: a successful run's only environment-variable write appends the
zlib crate's actual output directory to the prior `CMAKE_PREFIX_PATH`
with a `;` separator, preserving the prior value in full; with no prior
value the new value is just that output directory. -/
theorem cmake_prefix_path_preserved :
    ∀ (bt : BuildTarget) (fs : FeatureSet) (dir : String → DirStatus)
      (dst zlib_root : String) (pre : Option String) (cache : List String)
      (library : String),
      (build_grpc bt fs dir dst zlib_root pre cache library).panicMsg = none →
      ((pre = none →
        (build_grpc bt fs dir dst zlib_root pre cache library).envWrites =
          [("CMAKE_PREFIX_PATH", zlib_root ++ "/build")]) ∧
       (∀ p0, pre = some p0 →
        (build_grpc bt fs dir dst zlib_root pre cache library).envWrites =
          [("CMAKE_PREFIX_PATH", p0 ++ ";" ++ zlib_root ++ "/build")])) := by
  intro bt fs dir dst zr pre cache lib h
  have hp := prepare_none_of_panic_none bt fs dir dst zr pre cache lib h
  rw [build_grpc_of_prepare_none bt fs dir dst zr pre cache lib hp]
  constructor
  · rintro rfl
    rfl
  · rintro p0 rfl
    rfl

/-- Witness for C8 at a concrete run with a pre-existing
`CMAKE_PREFIX_PATH`. -/
theorem cmake_prefix_path_preserved_witness :
    (build_grpc ⟨some "linux", "release"⟩ ⟨false, false, false⟩
        (fun _ => DirStatus.nonEmpty) "D" "Z" (some "/old") [] "grpc_unsecure").panicMsg =
      none ∧
    (build_grpc ⟨some "linux", "release"⟩ ⟨false, false, false⟩
        (fun _ => DirStatus.nonEmpty) "D" "Z" (some "/old") [] "grpc_unsecure").envWrites =
      [("CMAKE_PREFIX_PATH", "/old" ++ ";" ++ "Z" ++ "/build")] :=
  ⟨by decide,
   (cmake_prefix_path_preserved ⟨some "linux", "release"⟩ ⟨false, false, false⟩
      (fun _ => DirStatus.nonEmpty) "D" "Z" (some "/old") [] "grpc_unsecure"
      (by decide)).2 "/old" rfl⟩

/-- C9: for any header tree whose entry paths are distinct, the scanner's
output is sorted, duplicate-free, and contains exactly the paths of the
regular files whose content carries one of the two API markers; being a
pure function of the tree, rescanning an unchanged tree reproduces the
identical ordering. -/
theorem scan_headers_sorted_nodup :
    ∀ tree : List DirEntry,
      (tree.map DirEntry.path).Nodup →
      List.Sorted (· ≤ ·) (scan_headers tree) ∧
      (scan_headers tree).Nodup ∧
      (∀ p, p ∈ scan_headers tree ↔
        ∃ e, e ∈ tree ∧ e.isFile = true ∧ content_has_api e.content = true ∧
          e.path = p) := by
  intro tree hnd
  have hperm := List.perm_insertionSort ((· ≤ ·) : String → String → Prop)
    ((tree.filter fun d => d.isFile && content_has_api d.content).map fun d => d.path)
  refine ⟨List.sorted_insertionSort _ _, ?_, ?_⟩
  · have hsub : ((tree.filter fun d => d.isFile && content_has_api d.content).map
        fun d => d.path).Sublist (tree.map fun d => d.path) :=
      List.Sublist.map _ (List.filter_sublist tree)
    exact hperm.symm.nodup (hsub.nodup hnd)
  · intro p
    unfold scan_headers
    rw [hperm.mem_iff]
    simp only [List.mem_map, List.mem_filter, Bool.and_eq_true]
    constructor
    · rintro ⟨e, ⟨he, hf, ha⟩, rfl⟩
      exact ⟨e, he, hf, ha, rfl⟩
    · rintro ⟨e, he, hf, ha, rfl⟩
      exact ⟨e, ⟨he, hf, ha⟩, rfl⟩

/-- Witness for C9 at a concrete three-entry tree. -/
theorem scan_headers_sorted_nodup_witness :
    (([⟨"b.h", true, "x GRPCAPI y"⟩, ⟨"a.h", true, "GPRAPI"⟩, ⟨"c.h", true, "plain"⟩] :
        List DirEntry).map DirEntry.path).Nodup ∧
    (List.Sorted (· ≤ ·) (scan_headers
        [⟨"b.h", true, "x GRPCAPI y"⟩, ⟨"a.h", true, "GPRAPI"⟩, ⟨"c.h", true, "plain"⟩]) ∧
     (scan_headers
        [⟨"b.h", true, "x GRPCAPI y"⟩, ⟨"a.h", true, "GPRAPI"⟩,
         ⟨"c.h", true, "plain"⟩]).Nodup ∧
     (∀ p, p ∈ scan_headers
        [⟨"b.h", true, "x GRPCAPI y"⟩, ⟨"a.h", true, "GPRAPI"⟩, ⟨"c.h", true, "plain"⟩] ↔
        ∃ e, e ∈ ([⟨"b.h", true, "x GRPCAPI y"⟩, ⟨"a.h", true, "GPRAPI"⟩,
            ⟨"c.h", true, "plain"⟩] : List DirEntry) ∧ e.isFile = true ∧
          content_has_api e.content = true ∧ e.path = p)) :=
  ⟨by decide,
   scan_headers_sorted_nodup
     [⟨"b.h", true, "x GRPCAPI y"⟩, ⟨"a.h", true, "GPRAPI"⟩, ⟨"c.h", true, "plain"⟩]
     (by decide)⟩

end GrpcSys
